import Mathlib

/-!
Verification development for the multi-agent observability hook scripts.

The definitions below are shallow embeddings of the Python sources under
`src/hooks-integration/` and `src/notification_server_tts.py`:

* `get_smart_server_url`, `load_config`, and the envelope/main logic of
  `send_event.py`;
* the envelope/main logic of `send_event_universal.py`;
* `is_dangerous_rm_command` and `main` of `pre_tool_use_safe.py`,
  including a derivative-based matcher for the two regular expressions
  the source searches for;
* the logging and TTS-trigger logic shared by `notification.py` and
  `notification_server_tts.py`.

JSON values are modelled by the inductive `JVal` (numbers as `Int`; the
claims under study involve no fractional numbers).  Python dicts coming
from `json.loads` are association lists in insertion order.  External
effects (the clock, the filesystem, environment variables) enter the
embeddings as explicit parameters.
-/

/-- A JSON value, as produced by Python's `json.loads`.  Objects keep
insertion order, matching Python dicts. -/
inductive JVal where
  | null : JVal
  | bool : Bool → JVal
  | num : Int → JVal
  | str : String → JVal
  | arr : List JVal → JVal
  | obj : List (String × JVal) → JVal
  deriving Repr

/-- Dictionary lookup, first match (claim inputs have no duplicate keys,
so this agrees with Python's `dict.get`). -/
def lookupKey : List (String × JVal) → String → Option JVal
  | [], _ => none
  | (k, v) :: rest, key => if k == key then some v else lookupKey rest key

/-- Python `d[k] = v`: replace the value in place if the key exists,
append otherwise (dict insertion order). -/
def setKey : List (String × JVal) → String → JVal → List (String × JVal)
  | [], k, v => [(k, v)]
  | (k', v') :: rest, k, v =>
      if k' == k then (k, v) :: rest else (k', v') :: setKey rest k v

/-- Top-level field access on a JSON value (`none` on non-objects). -/
def jget : JVal → String → Option JVal
  | .obj kvs, key => lookupKey kvs key
  | _, _ => none

/-- Python truthiness of a JSON value. -/
def jTruthy : JVal → Bool
  | .null => false
  | .bool b => b
  | .num n => n != 0
  | .str s => s != ""
  | .arr xs => !xs.isEmpty
  | .obj kvs => !kvs.isEmpty

/-! ## Environment-relative URL resolution (`send_event.py`, lines 24-55)

`is_running_in_docker` inspects `/.dockerenv`, `/proc/self/cgroup` and
`DOCKER_CONTAINER`; it enters the embedding as the boolean `inDocker`.
Strings are processed as `List Char` so that Python's `in` and
`str.replace` can be embedded directly. -/

/-- The characters of the placeholder host `host.docker.internal`. -/
def hdiChars : List Char :=
  ['h','o','s','t','.','d','o','c','k','e','r','.','i','n','t','e','r','n','a','l']

/-- The characters of `localhost`. -/
def localhostChars : List Char := ['l','o','c','a','l','h','o','s','t']

/-- `pat in s` for strings: some position of `s` starts with `pat`
(Python's substring containment). -/
def containsSub (pat : List Char) : List Char → Bool
  | [] => pat.isPrefixOf []
  | c :: rest => pat.isPrefixOf (c :: rest) || containsSub pat rest

/-- Fuelled worker for Python's `str.replace` (replace every
non-overlapping occurrence, scanning left to right).  The fuel bounds the
number of characters still to scan; `replaceAll` supplies `s.length`,
which is always sufficient. -/
def replaceAllF (pat repl : List Char) : Nat → List Char → List Char
  | _, [] => []
  | 0, c :: rest => c :: rest
  | fuel + 1, c :: rest =>
      if pat.isPrefixOf (c :: rest) && !pat.isEmpty then
        repl ++ replaceAllF pat repl fuel ((c :: rest).drop pat.length)
      else
        c :: replaceAllF pat repl fuel rest

/-- Python's `s.replace(pat, repl)` on character lists. -/
def replaceAll (pat repl s : List Char) : List Char :=
  replaceAllF pat repl s.length s

/-- `get_smart_server_url` from `send_event.py` (lines 44-55) on
character lists: keep URLs without the placeholder, keep the placeholder
inside Docker, otherwise replace every occurrence of the placeholder
substring with `localhost`. -/
def getSmartServerUrlChars (inDocker : Bool) (configUrl : List Char) : List Char :=
  if containsSub hdiChars configUrl then
    if inDocker then configUrl
    else replaceAll hdiChars localhostChars configUrl
  else configUrl

/-- `get_smart_server_url` on `String`. -/
def get_smart_server_url (inDocker : Bool) (configUrl : String) : String :=
  String.mk (getSmartServerUrlChars inDocker configUrl.data)

/-! ## `load_config` (`send_event.py`, lines 57-95)

The filesystem state of `.claude/hooks-config.json` is
`Option (Option JVal)`: `none` - file missing; `some none` - file exists
but reading/parsing raised `IOError`/`JSONDecodeError`; `some (some v)` -
file parses to `v`.  The source transforms `config['server_url']` through
`get_smart_server_url` when the key is present (the claims only exercise
string-valued URLs, which is the case embedded here). -/

def default_url : String := "http://host.docker.internal:4000/events"

/-- The built-in default features: all four enabled. -/
def defaultFeatures : List (String × JVal) :=
  [("summarize", .bool true),
   ("tts_notifications", .bool true),
   ("chat_transcript", .bool true),
   ("completion_announcements", .bool true)]

/-- The built-in default configuration returned on a missing or
unreadable/malformed config file. -/
def defaultConfig (inDocker : Bool) : JVal :=
  .obj [("source_app", .str "unknown-project"),
        ("server_url", .str (get_smart_server_url inDocker default_url)),
        ("features", .obj defaultFeatures)]

/-- `load_config`, total: every failure path of the source is a value
here, so loading never raises. -/
def load_config (inDocker : Bool) (file : Option (Option JVal)) : JVal :=
  match file with
  | none => defaultConfig inDocker
  | some none => defaultConfig inDocker
  | some (some cfg) =>
      match cfg with
      | .obj kvs =>
          match lookupKey kvs "server_url" with
          | some (.str u) =>
              .obj (setKey kvs "server_url" (.str (get_smart_server_url inDocker u)))
          | _ => .obj kvs
      | other => other

/-! ## Envelope construction and `main` of `send_event.py` (lines 137-199)

Command-line arguments arrive already parsed (their defaults come from the
loaded config exactly as in the source).  Standard input is
`Option JVal`: `none` when `json.load(sys.stdin)` raises
`JSONDecodeError`.  The transcript file named by the payload's
`transcript_path` is `Option (Option (List (Option JVal)))`:
`none` - no such path on disk; `some none` - opening/reading raised;
`some (some lines)` - the file was read, each element being the result of
`json.loads` on one stripped line (`none` for a line that is empty after
stripping or fails to parse - both are skipped by the source loop).
The wall clock enters as `now`, the value of
`int(datetime.now().timestamp() * 1000)`. -/

/-- The transcript loop of `send_event.py` (lines 174-183): append each
line that parses, skip the rest. -/
def buildChat : List (Option JVal) → List JVal
  | [] => []
  | some j :: rest => j :: buildChat rest
  | none :: rest => buildChat rest

/-- The chat value attached to the envelope, if any (lines 169-188):
requires `--add-chat`, a `transcript_path` key in the payload, an existing
file, and an exception-free read; any failure degrades to no chat. -/
def chatOf (addChat : Bool) (input : List (String × JVal))
    (transcript : Option (Option (List (Option JVal)))) : Option (List JVal) :=
  if addChat && (lookupKey input "transcript_path").isSome then
    match transcript with
    | some (some lines) => some (buildChat lines)
    | _ => none
  else none

/-- The `event_data` dict of `send_event.py` (lines 161-167), field order
as in the source. -/
def buildEventData (sourceApp eventType : String)
    (input : List (String × JVal)) (now : Int) : JVal :=
  .obj [("source_app", .str sourceApp),
        ("session_id", (lookupKey input "session_id").getD (.str "unknown")),
        ("hook_event_type", .str eventType),
        ("payload", .obj input),
        ("timestamp", .num now)]

/-- `event_data['chat'] = chat_data` (line 186) on the envelope object. -/
def setKeyJ : JVal → String → JVal → JVal
  | .obj kvs, k, v => .obj (setKey kvs k v)
  | j, _, _ => j

/-- The full envelope `send_event.py` serializes, chat included when
available. -/
def seEnvelope (sourceApp eventType : String) (addChat : Bool)
    (input : List (String × JVal))
    (transcript : Option (Option (List (Option JVal)))) (now : Int) : JVal :=
  match chatOf addChat input transcript with
  | some chat => setKeyJ (buildEventData sourceApp eventType input now) "chat" (.arr chat)
  | none => buildEventData sourceApp eventType input now

/-- A feature flag as read by `send_event.py` (lines 192-194):
`features.get(key, True)` followed by Python truthiness. -/
def featureEnabled (features : List (String × JVal)) (key : String) : Bool :=
  match lookupKey features key with
  | some v => jTruthy v
  | none => true

/-- The query parameters `send_event_to_server` appends (lines 101-110),
in source order. -/
def queryParams (summarize notify announce : Bool) : List String :=
  (if summarize then ["summarize=true"] else []) ++
  (if notify then ["notify=true"] else []) ++
  (if announce then ["announce=true"] else [])

/-- Observable outcome of one `send_event.py` invocation: the process
exit code, whether an HTTP delivery was attempted, the serialized
envelope when one was sent, and the query parameters of the request. -/
structure SEOutcome where
  exitCode : Nat
  delivered : Bool
  sent : Option JVal
  params : List String
  deriving Repr

/-- `main` of `send_event.py`.  `features` is `config.get('features', {})`
of the loaded config; `stdin` is the parse result of standard input.  On
a `JSONDecodeError` the source prints to stderr and calls `sys.exit(1)`
before any request is made; on a non-object JSON input,
`input_data.get('session_id', ...)` raises `AttributeError` outside any
handler, so the interpreter aborts with exit code 1 and nothing is sent;
otherwise the envelope is built, one delivery is attempted, and the
process exits 0 regardless of delivery success. -/
def sendEventMain (features : List (String × JVal)) (sourceApp eventType : String)
    (addChat summarizeReq notifyReq announceReq : Bool)
    (stdin : Option JVal)
    (transcript : Option (Option (List (Option JVal)))) (now : Int) : SEOutcome :=
  match stdin with
  | none => ⟨1, false, none, []⟩
  | some (.obj input) =>
      let s := summarizeReq && featureEnabled features "summarize"
      let n := notifyReq && featureEnabled features "tts_notifications"
      let a := announceReq && featureEnabled features "completion_announcements"
      ⟨0, true, some (seEnvelope sourceApp eventType addChat input transcript now),
        queryParams s n a⟩
  | some _ => ⟨1, false, none, []⟩

/-! ## `send_event_universal.py` (lines 107-190)

`get_session_id` (lines 80-105) draws on `CLAUDE_SESSION_ID`, a session
file, or a generated timestamp - never on the payload; its result enters
the embedding as `sessionId`.  The timestamp written into the event is
`datetime.now().isoformat()`, a string, entering as `nowIso`. -/

/-- A feature flag as read by `send_event_universal.py` (lines 124-128):
`config.get('features', {}).get(key)` under Python truthiness - an absent
key yields `None`, which is falsy. -/
def uFeatureOn (cfg : List (String × JVal)) (key : String) : Bool :=
  match lookupKey cfg "features" with
  | some (.obj fs) =>
      match lookupKey fs key with
      | some v => jTruthy v
      | none => false
  | _ => false

/-- The optional fields appended by lines 124-129, in source order. -/
def uExtras (cfg : List (String × JVal)) (sReq nReq aReq : Bool) :
    List (String × JVal) :=
  (if sReq && uFeatureOn cfg "summarize" then [("request_summary", .bool true)] else []) ++
  (if nReq && uFeatureOn cfg "tts_notifications" then [("notify", .bool true)] else []) ++
  (if aReq && uFeatureOn cfg "completion_announcements" then [("announce", .bool true)] else [])

/-- The `event` dict built by `send_event_to_server` of
`send_event_universal.py` (lines 115-129), field order as in the source. -/
def buildUEvent (cfg : List (String × JVal)) (sessionId nowIso : String)
    (eventData : List (String × JVal)) (sReq nReq aReq : Bool) : JVal :=
  .obj ([("source_app", (lookupKey cfg "project_name").getD (.str "unknown")),
         ("session_id", .str sessionId),
         ("hook_event_type", (lookupKey eventData "hook_event_type").getD (.str "unknown")),
         ("timestamp", .str nowIso),
         ("payload", .obj eventData)] ++ uExtras cfg sReq nReq aReq)

/-- Observable outcome of one `send_event_universal.py` invocation. -/
structure UOutcome where
  exitCode : Nat
  delivered : Bool
  sent : Option JVal
  deriving Repr

/-- `main` of `send_event_universal.py` (lines 151-190).  A stdin that
fails to parse is replaced by the empty dict (line 168) and the script
proceeds to deliver; the `--event-type` value is then written into the
payload itself (line 171), as is `--source-app` when given (lines
174-175); a valid non-object JSON input makes the item assignment on
line 171 raise `TypeError` outside any handler, aborting with exit
code 1.  Delivery failures are swallowed and the script exits 0. -/
def universalMain (cfg : List (String × JVal)) (sessionId nowIso : String)
    (eventType : String) (sourceAppArg : Option String)
    (summarizeReq notifyReq announceReq : Bool) (stdin : Option JVal) : UOutcome :=
  match stdin.getD (.obj []) with
  | .obj kvs =>
      let kvs1 := setKey kvs "hook_event_type" (.str eventType)
      let kvs2 := match sourceAppArg with
                  | some sa => setKey kvs1 "source_app" (.str sa)
                  | none => kvs1
      ⟨0, true, some (buildUEvent cfg sessionId nowIso kvs2
                        summarizeReq notifyReq announceReq)⟩
  | _ => ⟨1, false, none⟩

/-! ## `pre_tool_use_safe.py`

`is_dangerous_rm_command` (lines 14-24) lowercases the command, collapses
whitespace runs to single spaces, and runs `re.search` with the patterns
`\brm\s+.*-[a-z]*r[a-z]*f` and `\brm\s+.*-[a-z]*f[a-z]*r`.  The regular
expressions are embedded with Brzozowski derivatives; `re.search` of
`\b` followed by a pattern is: some position with a word boundary starts
a match of the rest.  The commands under study are ASCII, so character
classes are modelled at ASCII width. -/

/-- Regular expressions over characters (no anchors; the leading `\b` of
the source patterns is handled by `searchFromWB`). -/
inductive RE where
  | eps : RE
  | nev : RE
  | lit : Char → RE
  | cls : (Char → Bool) → RE
  | seq : RE → RE → RE
  | alt : RE → RE → RE
  | star : RE → RE

/-- Does the expression accept the empty string? -/
def RE.nullable : RE → Bool
  | .eps => true
  | .nev => false
  | .lit _ => false
  | .cls _ => false
  | .seq a b => a.nullable && b.nullable
  | .alt a b => a.nullable || b.nullable
  | .star _ => true

/-- Brzozowski derivative by one character. -/
def RE.deriv : RE → Char → RE
  | .eps, _ => .nev
  | .nev, _ => .nev
  | .lit c, a => if a = c then .eps else .nev
  | .cls p, a => if p a then .eps else .nev
  | .seq r s, a =>
      if r.nullable then .alt (.seq (r.deriv a) s) (s.deriv a)
      else .seq (r.deriv a) s
  | .alt r s, a => .alt (r.deriv a) (s.deriv a)
  | .star r, a => .seq (r.deriv a) (.star r)

/-- Does some prefix of the input match the expression? -/
def matchPrefix : RE → List Char → Bool
  | r, [] => r.nullable
  | r, c :: s => r.nullable || matchPrefix (r.deriv c) s

/-- Python `\w` at ASCII width. -/
def isWordChar (c : Char) : Bool :=
  ('a' ≤ c && c ≤ 'z') || ('A' ≤ c && c ≤ 'Z') || ('0' ≤ c && c ≤ '9') || c == '_'

/-- `\b` between a previous character and the next one (`none` at either
end of the input). -/
def wordBoundary (prev next : Option Char) : Bool :=
  (match prev with | none => false | some c => isWordChar c) !=
  (match next with | none => false | some c => isWordChar c)

/-- `re.search` for `\b` followed by `r`: try every position, requiring a
word boundary there and a matching prefix of the remaining input. -/
def searchFromWB (r : RE) : Option Char → List Char → Bool
  | prev, [] => wordBoundary prev none && r.nullable
  | prev, c :: s =>
      (wordBoundary prev (some c) && matchPrefix r (c :: s)) ||
      searchFromWB r (some c) s

/-- Python `str.split()` whitespace at ASCII width. -/
def pyIsSpace (c : Char) : Bool :=
  c == ' ' || c == '\t' || c == '\n' || c == '\x0d' || c == '\x0b' || c == '\x0c'

/-- Python `str.lower()` at ASCII width. -/
def pyLower (c : Char) : Char :=
  if 'A' ≤ c && c ≤ 'Z' then Char.ofNat (c.toNat + 32) else c

/-- Python `str.split()` with no argument: split on whitespace runs,
dropping empty pieces.  `acc` holds the current word, reversed. -/
def pySplitAux : List Char → List Char → List (List Char)
  | [], acc => if acc.isEmpty then [] else [acc.reverse]
  | c :: rest, acc =>
      if pyIsSpace c then
        if acc.isEmpty then pySplitAux rest [] else acc.reverse :: pySplitAux rest []
      else pySplitAux rest (c :: acc)

/-- Python `str.split()` with no argument. -/
def pySplit (s : List Char) : List (List Char) := pySplitAux s []

/-- `' '.join(words)`. -/
def joinSpace : List (List Char) → List Char
  | [] => []
  | [w] => w
  | w :: ws => w ++ ' ' :: joinSpace ws

/-- `' '.join(command.lower().split())` (line 16 of
`pre_tool_use_safe.py`). -/
def normalizeCmd (cmd : List Char) : List Char :=
  joinSpace (pySplit (cmd.map pyLower))

/-- `[a-z]`. -/
def lcCls : RE := .cls (fun c => 'a' ≤ c && c ≤ 'z')

/-- `\s`. -/
def spaceCls : RE := .cls pyIsSpace

/-- `.` (anything but a newline). -/
def dotCls : RE := .cls (fun c => c != '\n')

/-- `r+`. -/
def rePlus (r : RE) : RE := .seq r (.star r)

/-- Sequential composition of a list of expressions. -/
def seqList (rs : List RE) : RE := rs.foldr RE.seq .eps

/-- `rm\s+.*-[a-z]*r[a-z]*f` (what follows `\b` in the first source
pattern). -/
def rmPat1 : RE :=
  seqList [.lit 'r', .lit 'm', rePlus spaceCls, .star dotCls,
           .lit '-', .star lcCls, .lit 'r', .star lcCls, .lit 'f']

/-- `rm\s+.*-[a-z]*f[a-z]*r` (what follows `\b` in the second source
pattern). -/
def rmPat2 : RE :=
  seqList [.lit 'r', .lit 'm', rePlus spaceCls, .star dotCls,
           .lit '-', .star lcCls, .lit 'f', .star lcCls, .lit 'r']

/-- `is_dangerous_rm_command` from `pre_tool_use_safe.py` (lines 14-24). -/
def is_dangerous_rm_command (command : List Char) : Bool :=
  let normalized := normalizeCmd command
  searchFromWB rmPat1 none normalized || searchFromWB rmPat2 none normalized

/-- `main` of `pre_tool_use_safe.py` (lines 26-52), returning the process
exit code.  Every exception path (unparseable stdin, non-object input,
non-object `arguments`, non-string `command`) lands in the
`except` clause and exits 0; a dangerous Bash command exits 1; everything
else passes the input through and exits 0. -/
def preToolUseSafeMain (stdin : Option JVal) : Nat :=
  match stdin with
  | none => 0
  | some (.obj kvs) =>
      match lookupKey kvs "tool" with
      | some (.str t) =>
          if t == "Bash" then
            match (lookupKey kvs "arguments").getD (.obj []) with
            | .obj akvs =>
                match (lookupKey akvs "command").getD (.str "") with
                | .str cmd => if is_dangerous_rm_command cmd.data then 1 else 0
                | _ => 0
            | _ => 0
          else 0
      | _ => 0
  | some _ => 0

/-! ## `notification.py` and `notification_server_tts.py`

The two scripts share their `main` control flow verbatim (lines 99-145 of
`notification.py`, lines 84-130 of `notification_server_tts.py`); they
differ only in which TTS backend `announce`/`trigger_server_tts`
contacts, which is beyond the delivery boundary modelled here.  The state
of `logs/<session_id>/notification.json` is `Option (Option JVal)` with
the same encoding as for `load_config`. -/

/-- The `log_data` list the scripts append to: `[]` for a missing or
unparseable file, the elements for a file holding a JSON array, and
`none` when the file parses to a non-array - `log_data.append` then
raises `AttributeError`, caught by the outer handler. -/
def logDataOf : Option (Option JVal) → Option (List JVal)
  | none => some []
  | some none => some []
  | some (some (.arr xs)) => some xs
  | some (some _) => none

/-- The guard of lines 133-136 (`notification.py`) / 118-121
(`notification_server_tts.py`): `input_data.get('message')` compared
against the generic waiting message.  `None` and non-string values
compare unequal, hence trigger. -/
def msgIsGenericWaiting (kvs : List (String × JVal)) : Bool :=
  match lookupKey kvs "message" with
  | some (.str s) => s == "Claude is waiting for your input"
  | _ => false

/-- Observable outcome of one notification-hook invocation: the final
state of the session log file, the exit code, and whether the TTS
fallback chain was entered at all. -/
structure NOutcome where
  file : Option (Option JVal)
  exitCode : Nat
  ttsAttempted : Bool
  deriving Repr

/-- Shared `main` of `notification.py` and `notification_server_tts.py`.
Unparseable stdin and valid-but-non-object stdin both reach the `except`
clauses and exit 0 touching nothing; a prior log file holding a JSON
non-array makes the append raise, so the file stays as it was and no TTS
is attempted; otherwise the appended array is written back and the TTS
chain is entered exactly when `--notify` is set and the message differs
from the generic waiting string. -/
def notificationMain (file : Option (Option JVal)) (notifyFlag : Bool)
    (stdin : Option JVal) : NOutcome :=
  match stdin with
  | none => ⟨file, 0, false⟩
  | some (.obj kvs) =>
      match logDataOf file with
      | none => ⟨file, 0, false⟩
      | some xs =>
          ⟨some (some (.arr (xs ++ [.obj kvs]))), 0,
           notifyFlag && !msgIsGenericWaiting kvs⟩
  | some _ => ⟨file, 0, false⟩

/-! ## Helper lemmas -/

theorem isPrefixOf_append_self (xs ys : List Char) :
    xs.isPrefixOf (xs ++ ys) = true := by
  induction xs with
  | nil => simp [List.isPrefixOf]
  | cons a as ih => simp [List.isPrefixOf, ih]

theorem containsSub_of_isPrefixOf {pat s : List Char}
    (h : pat.isPrefixOf s = true) : containsSub pat s = true := by
  cases s with
  | nil => exact h
  | cons c rest => simp [containsSub, h]

theorem containsSub_append_left (pat pre s : List Char)
    (h : containsSub pat s = true) : containsSub pat (pre ++ s) = true := by
  induction pre with
  | nil => simpa using h
  | cons c cs ih => simp [containsSub, ih]

theorem replaceAllF_succ (pat repl : List Char) (fuel : Nat) (c : Char)
    (rest : List Char) :
    replaceAllF pat repl (fuel + 1) (c :: rest) =
      if pat.isPrefixOf (c :: rest) && !pat.isEmpty then
        repl ++ replaceAllF pat repl fuel ((c :: rest).drop pat.length)
      else
        c :: replaceAllF pat repl fuel rest := rfl

theorem replaceAllF_fuel (pat repl : List Char) :
    ∀ (f1 f2 : Nat) (s : List Char), s.length ≤ f1 → s.length ≤ f2 →
      replaceAllF pat repl f1 s = replaceAllF pat repl f2 s := by
  intro f1
  induction f1 with
  | zero =>
      intro f2 s h1 _
      cases s with
      | nil => cases f2 <;> rfl
      | cons c r => simp at h1
  | succ f ih =>
      intro f2 s h1 h2
      cases s with
      | nil => cases f2 <;> rfl
      | cons c rest =>
          cases f2 with
          | zero => exact absurd h2 (by simp)
          | succ f2' =>
              rw [replaceAllF_succ, replaceAllF_succ]
              by_cases hc : (pat.isPrefixOf (c :: rest) && !pat.isEmpty) = true
              · have hpat : 1 ≤ pat.length := by
                  rcases pat with _ | ⟨p, ps⟩
                  · simp at hc
                  · simp
                have hdl : ((c :: rest).drop pat.length).length ≤ rest.length := by
                  simp only [List.length_drop, List.length_cons]
                  omega
                have h1' := Nat.le_of_succ_le_succ h1
                have h2' := Nat.le_of_succ_le_succ h2
                rw [if_pos hc, if_pos hc, ih f2' _ (by omega) (by omega)]
              · have h1' := Nat.le_of_succ_le_succ h1
                have h2' := Nat.le_of_succ_le_succ h2
                rw [if_neg hc, if_neg hc, ih _ _ h1' h2']

theorem replaceAll_cons_no {pat : List Char} (repl : List Char) {c : Char}
    {s : List Char} (h : pat.isPrefixOf (c :: s) = false) :
    replaceAll pat repl (c :: s) = c :: replaceAll pat repl s := by
  show replaceAllF pat repl (s.length + 1) (c :: s) = c :: replaceAll pat repl s
  rw [replaceAllF_succ, if_neg (by simp [h])]
  rfl

theorem replaceAll_match (pat repl t : List Char)
    (hne : pat.isEmpty = false) :
    replaceAll pat repl (pat ++ t) = repl ++ replaceAll pat repl t := by
  rcases pat with _ | ⟨p, ps⟩
  · simp at hne
  · show replaceAllF (p :: ps) repl ((ps ++ t).length + 1) (p :: (ps ++ t))
        = repl ++ replaceAll (p :: ps) repl t
    rw [replaceAllF_succ,
        if_pos (by simp [show (p :: ps).isPrefixOf (p :: (ps ++ t)) = true from
                           isPrefixOf_append_self (p :: ps) t])]
    have hdrop : (p :: (ps ++ t)).drop (p :: ps).length = t :=
      List.drop_left (p :: ps) t
    rw [hdrop]
    have : replaceAllF (p :: ps) repl (ps ++ t).length t
         = replaceAllF (p :: ps) repl t.length t := by
      apply replaceAllF_fuel
      · simp only [List.length_append]; omega
      · exact Nat.le_refl _
    rw [this]
    rfl

theorem replaceAll_of_not_contains {pat : List Char} (repl : List Char)
    {s : List Char} (h : containsSub pat s = false) :
    replaceAll pat repl s = s := by
  induction s with
  | nil => rfl
  | cons c rest ih =>
      have hsplit : pat.isPrefixOf (c :: rest) = false ∧ containsSub pat rest = false := by
        constructor
        · cases hp : pat.isPrefixOf (c :: rest) with
          | false => rfl
          | true => rw [containsSub, hp] at h; simp at h
        · cases hcs : containsSub pat rest with
          | false => rfl
          | true => rw [containsSub, hcs] at h; simp at h
      rw [replaceAll_cons_no repl hsplit.1, ih hsplit.2]

theorem lookupKey_setKey_ne (kvs : List (String × JVal)) (k k' : String)
    (v : JVal) (h : (k == k') = false) :
    lookupKey (setKey kvs k v) k' = lookupKey kvs k' := by
  induction kvs with
  | nil => simp [setKey, lookupKey, h]
  | cons kv rest ih =>
      rcases kv with ⟨k0, v0⟩
      by_cases h0 : (k0 == k) = true
      · have : k0 = k := by simpa [beq_iff_eq] using h0
        subst this
        simp [setKey, lookupKey, h, h0]
      · simp only [setKey, h0, Bool.false_eq_true, if_false]
        simp [lookupKey, ih]

theorem lookupKey_append_left {kvs : List (String × JVal)} (rest : List (String × JVal))
    {k : String} {v : JVal} (h : lookupKey kvs k = some v) :
    lookupKey (kvs ++ rest) k = some v := by
  induction kvs with
  | nil => simp [lookupKey] at h
  | cons kv tl ih =>
      rcases kv with ⟨k0, v0⟩
      by_cases h0 : (k0 == k) = true
      · simp_all [lookupKey]
      · simp only [lookupKey, h0, Bool.false_eq_true, if_false] at h
        simp [lookupKey, h0, ih h]

/-! ## Claims -/

/-- C1 (amended): on standard input that is not valid JSON,
`send_event.py` terminates with exit code 1 - a non-blocking but
non-success status - and attempts no delivery, while
`send_event_universal.py` terminates with the success status 0 but does
attempt a delivery, of an envelope whose payload is the empty object
extended with the `--event-type` value. -/
theorem c1_malformed_input_amended
    (features : List (String × JVal)) (sourceApp eventType : String)
    (addChat sReq nReq aReq : Bool)
    (transcript : Option (Option (List (Option JVal)))) (now : Int)
    (cfg : List (String × JVal)) (sessionId nowIso et : String)
    (sourceAppArg : Option String) (us un ua : Bool) :
    sendEventMain features sourceApp eventType addChat sReq nReq aReq
        none transcript now = ⟨1, false, none, []⟩
    ∧ (universalMain cfg sessionId nowIso et sourceAppArg us un ua none).exitCode = 0
    ∧ (universalMain cfg sessionId nowIso et sourceAppArg us un ua none).delivered = true
    ∧ jget ((universalMain cfg sessionId nowIso et none us un ua none).sent.getD .null)
        "payload" = some (.obj [("hook_event_type", .str et)]) := by
  refine ⟨rfl, ?_, ?_, rfl⟩ <;> cases sourceAppArg <;> rfl

/-- C1 (counterexample): at a malformed stdin, `send_event.py` exits with
code 1 rather than the success status, and `send_event_universal.py`
does attempt a delivery - so the claimed conjunction of a success exit
and no delivery attempt fails for each script. -/
theorem c1_malformed_input_counterexample :
    (sendEventMain [] "app" "Stop" false false false false none none 0).exitCode = 1
    ∧ (universalMain [] "sid" "t0" "Stop" none false false false none).delivered = true :=
  ⟨rfl, rfl⟩

/-- C2 (amended): a configured URL without the placeholder is returned
unchanged in every environment; a URL is returned unchanged inside a
container; outside a container, every occurrence of the placeholder
substring is replaced by `localhost` - in particular, when the
placeholder occurs exactly once, as the host of a URL of the form
`http://host.docker.internal<rest>`, the scheme and the entire
remainder (port and path) are preserved exactly.  (The source performs a
global substring replacement, so a URL whose path also contains the
placeholder has its path rewritten too - see the counterexample.) -/
theorem c2_smart_url_amended :
    (∀ (d : Bool) (url : List Char), containsSub hdiChars url = false →
        getSmartServerUrlChars d url = url)
    ∧ (∀ url : List Char, getSmartServerUrlChars true url = url)
    ∧ (∀ rest : List Char, containsSub hdiChars rest = false →
        getSmartServerUrlChars false (['h','t','t','p',':','/','/'] ++ hdiChars ++ rest)
          = ['h','t','t','p',':','/','/'] ++ localhostChars ++ rest) := by
  refine ⟨?_, ?_, ?_⟩
  · intro d url h
    simp [getSmartServerUrlChars, h]
  · intro url
    by_cases h : containsSub hdiChars url <;> simp [getSmartServerUrlChars, h]
  · intro rest h
    have hcontains :
        containsSub hdiChars (['h','t','t','p',':','/','/'] ++ hdiChars ++ rest) = true := by
      rw [List.append_assoc]
      exact containsSub_append_left _ _ _
        (containsSub_of_isPrefixOf (isPrefixOf_append_self hdiChars rest))
    simp only [getSmartServerUrlChars, hcontains, if_true, Bool.false_eq_true, if_false]
    show replaceAll hdiChars localhostChars
        ('h' :: 't' :: 't' :: 'p' :: ':' :: '/' :: '/' :: (hdiChars ++ rest))
        = 'h' :: 't' :: 't' :: 'p' :: ':' :: '/' :: '/' :: (localhostChars ++ rest)
    have h0 : hdiChars.isPrefixOf
        ('h' :: 't' :: 't' :: 'p' :: ':' :: '/' :: '/' :: (hdiChars ++ rest)) = false := rfl
    have h1 : hdiChars.isPrefixOf
        ('t' :: 't' :: 'p' :: ':' :: '/' :: '/' :: (hdiChars ++ rest)) = false := rfl
    have h2 : hdiChars.isPrefixOf
        ('t' :: 'p' :: ':' :: '/' :: '/' :: (hdiChars ++ rest)) = false := rfl
    have h3 : hdiChars.isPrefixOf
        ('p' :: ':' :: '/' :: '/' :: (hdiChars ++ rest)) = false := rfl
    have h4 : hdiChars.isPrefixOf
        (':' :: '/' :: '/' :: (hdiChars ++ rest)) = false := rfl
    have h5 : hdiChars.isPrefixOf
        ('/' :: '/' :: (hdiChars ++ rest)) = false := rfl
    have h6 : hdiChars.isPrefixOf
        ('/' :: (hdiChars ++ rest)) = false := rfl
    rw [replaceAll_cons_no localhostChars h0, replaceAll_cons_no localhostChars h1,
        replaceAll_cons_no localhostChars h2, replaceAll_cons_no localhostChars h3,
        replaceAll_cons_no localhostChars h4, replaceAll_cons_no localhostChars h5,
        replaceAll_cons_no localhostChars h6,
        replaceAll_match hdiChars localhostChars rest rfl,
        replaceAll_of_not_contains localhostChars h]

/-- C2 (witness): the amended rewrite at the concrete default URL. -/
theorem c2_smart_url_witness :
    containsSub hdiChars ":4000/events".data = false
    ∧ getSmartServerUrlChars false
        (['h','t','t','p',':','/','/'] ++ hdiChars ++ ":4000/events".data)
        = ['h','t','t','p',':','/','/'] ++ localhostChars ++ ":4000/events".data :=
  ⟨by decide, c2_smart_url_amended.2.2 ":4000/events".data (by decide)⟩

/-- C3: the chat array built from a transcript keeps exactly the lines
that parse, in original file order (`filterMap id` of the per-line parse
results); its length is the number of parsing lines; when the transcript
is readable the envelope's `chat` field is exactly that array; and a read
error degrades to an envelope without a `chat` field while the delivery
still happens. -/
theorem c3_transcript_chat :
    (∀ lines : List (Option JVal), buildChat lines = lines.filterMap id)
    ∧ (∀ lines : List (Option JVal),
        (buildChat lines).length = (lines.filter Option.isSome).length)
    ∧ (∀ (sa et : String) (input : List (String × JVal))
         (lines : List (Option JVal)) (now : Int),
        (lookupKey input "transcript_path").isSome = true →
        jget (seEnvelope sa et true input (some (some lines)) now) "chat"
          = some (.arr (buildChat lines)))
    ∧ (∀ (features : List (String × JVal)) (sa et : String) (sReq nReq aReq : Bool)
         (input : List (String × JVal)) (now : Int),
        (sendEventMain features sa et true sReq nReq aReq
            (some (.obj input)) (some none) now).delivered = true
        ∧ jget ((sendEventMain features sa et true sReq nReq aReq
            (some (.obj input)) (some none) now).sent.getD .null) "chat" = none) := by
  refine ⟨?_, ?_, ?_, ?_⟩
  · intro lines
    induction lines with
    | nil => rfl
    | cons o rest ih => cases o <;> simp [buildChat, ih]
  · intro lines
    induction lines with
    | nil => rfl
    | cons o rest ih => cases o <;> simp [buildChat, ih]
  · intro sa et input lines now h
    unfold seEnvelope
    have hchat : chatOf true input (some (some lines)) = some (buildChat lines) := by
      unfold chatOf
      rw [h]
      rfl
    rw [hchat]
    show jget (setKeyJ (buildEventData sa et input now) "chat"
            (.arr (buildChat lines))) "chat" = some (.arr (buildChat lines))
    rfl
  · intro features sa et sReq nReq aReq input now
    have hchat : chatOf true input (some none) = none := by
      unfold chatOf
      cases h : (lookupKey input "transcript_path").isSome <;> simp [h]
    refine ⟨rfl, ?_⟩
    show jget (seEnvelope sa et true input (some none) now) "chat" = none
    unfold seEnvelope
    rw [hchat]
    rfl

/-- C3 (witness): a transcript with two parsing lines and one
non-parsing line between them yields a chat array with exactly those two
records, in order. -/
theorem c3_transcript_chat_witness :
    (lookupKey [("transcript_path", JVal.str "/t")] "transcript_path").isSome = true
    ∧ jget (seEnvelope "app" "Stop" true [("transcript_path", JVal.str "/t")]
        (some (some [some (JVal.obj []), none, some JVal.null])) 0) "chat"
      = some (.arr [JVal.obj [], JVal.null]) :=
  ⟨rfl, c3_transcript_chat.2.2.1 "app" "Stop"
      [("transcript_path", JVal.str "/t")]
      [some (JVal.obj []), none, some JVal.null] 0 rfl⟩

/-- C4: a Bash payload whose command contains a recursive-plus-force
removal is classified dangerous and makes `pre_tool_use_safe.py` exit
with its blocking failure code 1, in upper, lower or mixed case and with
arbitrary whitespace between the words; `rm file.txt` is not classified
dangerous and the hook exits 0.  Classification depends only on the
normalized (lowercased, whitespace-collapsed) command. -/
theorem c4_dangerous_rm :
    is_dangerous_rm_command "rm -rf /tmp/x".data = true
    ∧ is_dangerous_rm_command "RM -RF /tmp/x".data = true
    ∧ is_dangerous_rm_command "rm    -rf   /tmp/x".data = true
    ∧ is_dangerous_rm_command "Rm\t-rF  /tmp/x".data = true
    ∧ is_dangerous_rm_command "rm -fr /tmp/x".data = true
    ∧ is_dangerous_rm_command "rm file.txt".data = false
    ∧ (∀ c1 c2 : List Char, normalizeCmd c1 = normalizeCmd c2 →
        is_dangerous_rm_command c1 = is_dangerous_rm_command c2)
    ∧ preToolUseSafeMain (some (.obj [("tool", .str "Bash"),
        ("arguments", .obj [("command", .str "rm -rf /tmp/x")])])) = 1
    ∧ preToolUseSafeMain (some (.obj [("tool", .str "Bash"),
        ("arguments", .obj [("command", .str "rm file.txt")])])) = 0 := by
  refine ⟨by decide, by decide, by decide, by decide, by decide, by decide,
          ?_, by decide, by decide⟩
  intro c1 c2 h
  unfold is_dangerous_rm_command
  rw [h]

/-- C4 (witness): the normalization-congruence applied to a concrete
upper-case, extra-whitespace variant of the dangerous command. -/
theorem c4_dangerous_rm_witness :
    normalizeCmd "RM   -RF /tmp/x".data = normalizeCmd "rm -rf /tmp/x".data
    ∧ is_dangerous_rm_command "RM   -RF /tmp/x".data
      = is_dangerous_rm_command "rm -rf /tmp/x".data :=
  ⟨by decide, c4_dangerous_rm.2.2.2.2.2.2.1 "RM   -RF /tmp/x".data
      "rm -rf /tmp/x".data (by decide)⟩

/-- C2 (counterexample): for a configured URL whose path also contains
the placeholder, the non-container rewrite changes the path as well -
the result is `http://localhost:4000/localhost`, not the path-preserving
`http://localhost:4000/host.docker.internal` the claim requires. -/
theorem c2_smart_url_counterexample :
    getSmartServerUrlChars false
        "http://host.docker.internal:4000/host.docker.internal".data
      = "http://localhost:4000/localhost".data
    ∧ getSmartServerUrlChars false
        "http://host.docker.internal:4000/host.docker.internal".data
      ≠ "http://localhost:4000/host.docker.internal".data := by
  constructor
  · decide
  · decide

/-- C5 (amended): in `send_event.py` the envelope's `payload` field is
the raw parsed stdin object, unmodified, whether or not a chat is
attached; in `send_event_universal.py` the `payload` field is the parsed
stdin object with `hook_event_type` overwritten by the `--event-type`
argument (and `source_app` overwritten when `--source-app` is given) -
not the raw input. -/
theorem c5_payload_amended :
    (∀ (sa et : String) (addChat : Bool) (input : List (String × JVal))
       (transcript : Option (Option (List (Option JVal)))) (now : Int),
        jget (seEnvelope sa et addChat input transcript now) "payload"
          = some (.obj input))
    ∧ (∀ (cfg : List (String × JVal)) (sid iso : String)
         (ed : List (String × JVal)) (sR nR aR : Bool),
        jget (buildUEvent cfg sid iso ed sR nR aR) "payload" = some (.obj ed))
    ∧ (∀ (cfg : List (String × JVal)) (sid iso et : String) (sR nR aR : Bool)
         (kvs : List (String × JVal)),
        (universalMain cfg sid iso et none sR nR aR (some (.obj kvs))).sent
          = some (buildUEvent cfg sid iso
              (setKey kvs "hook_event_type" (.str et)) sR nR aR)) := by
  refine ⟨?_, ?_, ?_⟩
  · intro sa et addChat input transcript now
    unfold seEnvelope
    cases chatOf addChat input transcript with
    | none => rfl
    | some chat => rfl
  · intro cfg sid iso ed sR nR aR
    rfl
  · intro cfg sid iso et sR nR aR kvs
    rfl

/-- C5 (counterexample): for the empty stdin object,
`send_event_universal.py` delivers a payload that already carries the
`hook_event_type` key - the payload is not the raw, unmodified hook
input. -/
theorem c5_payload_counterexample :
    jget ((universalMain [] "sid" "t0" "Stop" none false false false
        (some (.obj []))).sent.getD .null) "payload"
      = some (.obj [("hook_event_type", .str "Stop")])
    ∧ (JVal.obj [("hook_event_type", .str "Stop")]) ≠ .obj [] :=
  ⟨rfl, by simp⟩

/-- C6 (amended): in `send_event.py` the envelope's `timestamp` is the
integer millisecond clock value taken at send time and `session_id` is
the payload's `session_id` value, or `"unknown"` when absent; in
`send_event_universal.py` the `timestamp` is an ISO-format string and the
`session_id` comes from the environment/session file, independent of the
payload. -/
theorem c6_timestamp_session_amended :
    (∀ (sa et : String) (input : List (String × JVal)) (now : Int),
        jget (buildEventData sa et input now) "timestamp" = some (.num now)
        ∧ jget (buildEventData sa et input now) "session_id"
            = some ((lookupKey input "session_id").getD (.str "unknown")))
    ∧ (∀ (sa et : String) (addChat : Bool) (input : List (String × JVal))
         (transcript : Option (Option (List (Option JVal)))) (now : Int),
        jget (seEnvelope sa et addChat input transcript now) "timestamp"
          = some (.num now))
    ∧ (∀ (cfg : List (String × JVal)) (sid iso : String)
         (ed : List (String × JVal)) (sR nR aR : Bool),
        jget (buildUEvent cfg sid iso ed sR nR aR) "timestamp" = some (.str iso)
        ∧ jget (buildUEvent cfg sid iso ed sR nR aR) "session_id"
            = some (.str sid)) := by
  refine ⟨fun sa et input now => ⟨rfl, rfl⟩, ?_, fun cfg sid iso ed sR nR aR => ⟨rfl, rfl⟩⟩
  intro sa et addChat input transcript now
  unfold seEnvelope
  cases chatOf addChat input transcript with
  | none => rfl
  | some chat => rfl

/-- C6 (counterexample): a universal envelope built from a payload that
itself carries `session_id = "payload-sid"` gets the environment-derived
session id `"envsid"` instead, and its `timestamp` field holds a string,
not an integer millisecond count. -/
theorem c6_timestamp_session_counterexample :
    jget (buildUEvent [] "envsid" "2025-01-01T00:00:00"
        [("session_id", .str "payload-sid"), ("hook_event_type", .str "Stop")]
        false false false) "session_id" = some (.str "envsid")
    ∧ (JVal.str "envsid") ≠ .str "payload-sid"
    ∧ jget (buildUEvent [] "envsid" "2025-01-01T00:00:00"
        [("session_id", .str "payload-sid"), ("hook_event_type", .str "Stop")]
        false false false) "timestamp" = some (.str "2025-01-01T00:00:00")
    ∧ ¬ ∃ n : Int, jget (buildUEvent [] "envsid" "2025-01-01T00:00:00"
        [("session_id", .str "payload-sid"), ("hook_event_type", .str "Stop")]
        false false false) "timestamp" = some (.num n) := by
  refine ⟨rfl, by simp, rfl, ?_⟩
  rintro ⟨n, h⟩
  rw [show jget (buildUEvent [] "envsid" "2025-01-01T00:00:00"
        [("session_id", .str "payload-sid"), ("hook_event_type", .str "Stop")]
        false false false) "timestamp" = some (.str "2025-01-01T00:00:00") from rfl] at h
  simp at h

/-- Membership in the query-parameter list of `send_event.py` is exactly
the corresponding gated boolean. -/
theorem mem_queryParams (s n a : Bool) :
    ("summarize=true" ∈ queryParams s n a ↔ s = true)
    ∧ ("notify=true" ∈ queryParams s n a ↔ n = true)
    ∧ ("announce=true" ∈ queryParams s n a ↔ a = true) := by
  cases s <;> cases n <;> cases a <;> refine ⟨?_, ?_, ?_⟩ <;> simp [queryParams]

/-- C7 (amended): in `send_event.py` each query-level signal is sent iff
the caller requested it and the corresponding feature flag permits it,
where an absent flag counts as enabled - so a caller can never force a
disabled feature; in `send_event_universal.py` the corresponding envelope
field is set iff the caller requested it and the flag is present and
truthy - an absent flag (or an absent `features` object) counts as
disabled there. -/
theorem c7_signal_gating_amended :
    (∀ (features : List (String × JVal)) (sa et : String)
       (ac sReq nReq aReq : Bool) (input : List (String × JVal))
       (transcript : Option (Option (List (Option JVal)))) (now : Int),
        ("summarize=true" ∈ (sendEventMain features sa et ac sReq nReq aReq
            (some (.obj input)) transcript now).params
          ↔ (sReq && featureEnabled features "summarize") = true)
        ∧ ("notify=true" ∈ (sendEventMain features sa et ac sReq nReq aReq
            (some (.obj input)) transcript now).params
          ↔ (nReq && featureEnabled features "tts_notifications") = true)
        ∧ ("announce=true" ∈ (sendEventMain features sa et ac sReq nReq aReq
            (some (.obj input)) transcript now).params
          ↔ (aReq && featureEnabled features "completion_announcements") = true))
    ∧ (∀ (features : List (String × JVal)) (key : String),
        lookupKey features key = none → featureEnabled features key = true)
    ∧ (∀ (cfg : List (String × JVal)) (sid iso : String)
         (ed : List (String × JVal)) (sR nR aR : Bool),
        jget (buildUEvent cfg sid iso ed sR nR aR) "request_summary"
          = (if sR && uFeatureOn cfg "summarize" then some (.bool true) else none)
        ∧ jget (buildUEvent cfg sid iso ed sR nR aR) "notify"
          = (if nR && uFeatureOn cfg "tts_notifications" then some (.bool true) else none)
        ∧ jget (buildUEvent cfg sid iso ed sR nR aR) "announce"
          = (if aR && uFeatureOn cfg "completion_announcements" then some (.bool true) else none))
    ∧ (∀ (cfg : List (String × JVal)) (key : String),
        lookupKey cfg "features" = none → uFeatureOn cfg key = false) := by
  refine ⟨?_, ?_, ?_, ?_⟩
  · intro features sa et ac sReq nReq aReq input transcript now
    have hp : (sendEventMain features sa et ac sReq nReq aReq
        (some (.obj input)) transcript now).params
        = queryParams (sReq && featureEnabled features "summarize")
            (nReq && featureEnabled features "tts_notifications")
            (aReq && featureEnabled features "completion_announcements") := rfl
    rw [hp]
    exact mem_queryParams _ _ _
  · intro features key h
    unfold featureEnabled
    rw [h]
  · intro cfg sid iso ed sR nR aR
    refine ⟨?_, ?_, ?_⟩ <;>
      cases h1 : sR && uFeatureOn cfg "summarize" <;>
      cases h2 : nR && uFeatureOn cfg "tts_notifications" <;>
      cases h3 : aR && uFeatureOn cfg "completion_announcements" <;>
      simp only [buildUEvent, uExtras, h1, h2, h3, Bool.false_eq_true,
                 if_true, if_false, jget] <;> rfl
  · intro cfg key h
    unfold uFeatureOn
    rw [h]

/-- C7 (witness): in `send_event.py` an absent feature key counts as
enabled, so a requested summarize signal is sent under the empty feature
map. -/
theorem c7_signal_gating_witness :
    lookupKey [] "summarize" = none
    ∧ featureEnabled [] "summarize" = true
    ∧ ("summarize=true" ∈ (sendEventMain [] "app" "Stop" false true false false
        (some (.obj [])) none 0).params
        ↔ (true && featureEnabled [] "summarize") = true) :=
  ⟨rfl, c7_signal_gating_amended.2.1 [] "summarize" rfl,
   (c7_signal_gating_amended.1 [] "app" "Stop" false true false false [] none 0).1⟩

/-- C7 (counterexample): under a configuration with no feature map at
all, a caller of `send_event_universal.py` requesting the summarize
signal does not get it sent - the claim's "absent counts as enabled"
fails for this script. -/
theorem c7_signal_gating_counterexample :
    uFeatureOn [] "summarize" = false
    ∧ jget (buildUEvent [] "sid" "t0" [("hook_event_type", .str "Stop")]
        true false false) "request_summary" = none :=
  ⟨rfl, rfl⟩

/-- C8 (amended): `load_config` is total and returns the built-in
default on a missing or unreadable/malformed file: application name
`unknown-project`, all four feature flags enabled, and the default URL
resolved for the environment - `http://localhost:4000/events` outside a
container but `http://host.docker.internal:4000/events` inside one. -/
theorem c8_load_config_amended :
    (∀ d : Bool, load_config d none = defaultConfig d
        ∧ load_config d (some none) = defaultConfig d)
    ∧ (∀ d : Bool, jget (defaultConfig d) "source_app"
        = some (.str "unknown-project"))
    ∧ jget (defaultConfig false) "server_url"
        = some (.str "http://localhost:4000/events")
    ∧ jget (defaultConfig true) "server_url"
        = some (.str "http://host.docker.internal:4000/events")
    ∧ (∀ d : Bool, jget (defaultConfig d) "features" = some (.obj defaultFeatures))
    ∧ featureEnabled defaultFeatures "summarize" = true
    ∧ featureEnabled defaultFeatures "tts_notifications" = true
    ∧ featureEnabled defaultFeatures "chat_transcript" = true
    ∧ featureEnabled defaultFeatures "completion_announcements" = true :=
  ⟨fun _ => ⟨rfl, rfl⟩, fun _ => rfl, rfl, rfl, fun _ => rfl,
   rfl, rfl, rfl, rfl⟩

/-- C8 (counterexample): inside a container the default configuration's
server URL is the `host.docker.internal` URL, not a localhost URL, so
the claim's unconditional "localhost server URL" fails there. -/
theorem c8_load_config_counterexample :
    jget (load_config true none) "server_url"
      = some (.str "http://host.docker.internal:4000/events")
    ∧ ("http://host.docker.internal:4000/events" : String)
      ≠ "http://localhost:4000/events" :=
  ⟨rfl, by decide⟩

/-- C9: a notification payload whose `message` is the generic
`"Claude is waiting for your input"` string never enters the
notification fallback chain - `announce_notification` /
`trigger_server_tts` (and hence every server-side or local TTS engine)
is not attempted, even with `--notify` set.  This holds for the shared
main flow of both `notification.py` and `notification_server_tts.py`,
over every prior state of the session log file. -/
theorem c9_generic_waiting_no_tts (file : Option (Option JVal))
    (notifyFlag : Bool) (kvs : List (String × JVal))
    (h : lookupKey kvs "message"
        = some (.str "Claude is waiting for your input")) :
    (notificationMain file notifyFlag (some (.obj kvs))).ttsAttempted = false := by
  simp only [notificationMain]
  cases logDataOf file with
  | none => rfl
  | some xs => simp [msgIsGenericWaiting, h]

/-- C9 (witness): the generic waiting message with `--notify` set, on a
fresh log directory, attempts no TTS. -/
theorem c9_generic_waiting_no_tts_witness :
    lookupKey [("message", JVal.str "Claude is waiting for your input")] "message"
      = some (.str "Claude is waiting for your input")
    ∧ (notificationMain none true (some (.obj
        [("message", JVal.str "Claude is waiting for your input")]))).ttsAttempted
      = false :=
  ⟨rfl, c9_generic_waiting_no_tts none true
      [("message", JVal.str "Claude is waiting for your input")] rfl⟩

/-- C10 (amended): after a notification-hook invocation with a valid
JSON object input, whenever the prior log file content was missing,
unparseable, or a JSON array, the file holds a JSON array whose last
element is the payload just received; an unparseable prior content is
reset to exactly the one-element array; but a prior content that parses
to a JSON non-array makes the internal append raise, so the file is left
unchanged (the hook still exits 0 in every case). -/
theorem c10_notification_log_amended (file : Option (Option JVal))
    (nf : Bool) (kvs : List (String × JVal)) :
    (∀ xs : List JVal, logDataOf file = some xs →
        (notificationMain file nf (some (.obj kvs))).file
          = some (some (.arr (xs ++ [.obj kvs])))
        ∧ (xs ++ [JVal.obj kvs]).getLast? = some (.obj kvs))
    ∧ (logDataOf file = none →
        (notificationMain file nf (some (.obj kvs))).file = file)
    ∧ (notificationMain (some none) nf (some (.obj kvs))).file
        = some (some (.arr [.obj kvs]))
    ∧ (notificationMain file nf (some (.obj kvs))).exitCode = 0 := by
  refine ⟨?_, ?_, rfl, ?_⟩
  · intro xs h
    refine ⟨?_, ?_⟩
    · simp only [notificationMain, h]
    · exact List.getLast?_concat _
  · intro h
    simp only [notificationMain, h]
  · simp only [notificationMain]
    cases logDataOf file <;> rfl

/-- C10 (witness): logging into a fresh session directory produces the
one-element array holding the payload. -/
theorem c10_notification_log_witness :
    logDataOf none = some []
    ∧ (notificationMain none true (some (.obj
        [("session_id", JVal.str "s")]))).file
      = some (some (.arr [.obj [("session_id", JVal.str "s")]])) :=
  ⟨rfl, ((c10_notification_log_amended none true
      [("session_id", JVal.str "s")]).1 [] rfl).1⟩

/-- C10 (counterexample): when the prior log file holds valid JSON that
is not an array (here the empty object), the invocation leaves the file
unchanged - afterwards it does not contain a JSON array ending in the
received payload, contradicting the claim. -/
theorem c10_notification_log_counterexample :
    (notificationMain (some (some (.obj []))) true
        (some (.obj [("session_id", JVal.str "s")]))).file
      = some (some (.obj []))
    ∧ ¬ ∃ ys : List JVal,
        (notificationMain (some (some (.obj []))) true
            (some (.obj [("session_id", JVal.str "s")]))).file
          = some (some (.arr ys))
        ∧ ys.getLast? = some (.obj [("session_id", JVal.str "s")]) := by
  refine ⟨rfl, ?_⟩
  rintro ⟨ys, h, _⟩
  rw [show (notificationMain (some (some (.obj []))) true
      (some (.obj [("session_id", JVal.str "s")]))).file
      = some (some (.obj [])) from rfl] at h
  simp at h
